import Mathlib

/-!
Verification of the fake-profile detection code: a shallow embedding of
`FakeProfileDetector.predict` (the rule-based risk scorer), the
`InstagramAnalyzer.get_profile` acquisition chain, and the relevant Flask
route logic from `app.py`, together with theorems settling the stated
behavioural properties.

Numeric modelling choices: Python ints become `Nat`/`Int`; the float
division `following / followers` is modelled exactly over `ℚ` (the
thresholds compared against are rationals); reason strings are kept
without the interpolated numeric formatting, which no property depends on.
-/

namespace FakeDetect

/-- Profile attribute record consumed by `FakeProfileDetector.predict`:
exactly the keys the scorer reads via `profile_data.get` (with the
defaults engaged when a key is absent). -/
structure ProfileData where
  username : String
  followers : Nat
  following : Nat
  total_posts : Nat
  account_age_days : Nat
  is_verified : Bool
  has_profile_pic : Bool
  biography : String
  deriving DecidableEq, Repr

/-- The `ratio` variable of the scorer: initialized to `0` and assigned
`following / followers` only under the `followers > 0` guard, so it is
never produced by a division by zero. Written with `mkRat` (the exact
rational `following / followers`; see `ratioValue_eq_div`). -/
def ratioValue (r : ProfileData) : ℚ :=
  if 0 < r.followers then mkRat r.following r.followers else 0


/-- Additive contribution of one scoring section: risk increment, signed
confidence increment, and the reasons it appends. -/
structure Delta where
  risk : Nat
  conf : Int
  reasons : List String
  deriving DecidableEq, Repr

/-- Section 1 of the scorer: follower/following ratio analysis
(the `if followers > 0` block with its elif chain). -/
def ratioDelta (r : ProfileData) : Delta :=
  if 0 < r.followers then
    if ratioValue r > 20 then ⟨40, -35, ["Extremely high following/followers ratio"]⟩
    else if ratioValue r > 10 then ⟨30, -25, ["Very high following/followers ratio"]⟩
    else if ratioValue r > 5 then ⟨20, -15, ["High following/followers ratio"]⟩
    else if ratioValue r < mkRat 1 1000 ∧ r.followers > 10000 then ⟨0, 15, ["Excellent follower/following ratio"]⟩
    else if ratioValue r < mkRat 1 100 ∧ r.followers > 1000 then ⟨0, 10, ["Good follower/following ratio"]⟩
    else ⟨0, 0, []⟩
  else ⟨0, 0, []⟩

/-- Section 2: account age analysis (guarded by `account_age_days > 0`). -/
def ageDelta (r : ProfileData) : Delta :=
  if 0 < r.account_age_days then
    if r.account_age_days < 7 then ⟨35, -30, ["Very new account"]⟩
    else if r.account_age_days < 30 then ⟨25, -20, ["New account"]⟩
    else if r.account_age_days < 90 then ⟨15, -10, ["Recent account"]⟩
    else if r.account_age_days > 365 * 2 then ⟨0, 15, ["Well-established account"]⟩
    else if r.account_age_days > 365 then ⟨0, 10, ["Established account"]⟩
    else ⟨0, 0, []⟩
  else ⟨0, 0, []⟩

/-- Section 3: posting activity analysis. -/
def postsDelta (r : ProfileData) : Delta :=
  if r.total_posts = 0 then ⟨30, -25, ["No posts at all"]⟩
  else if r.total_posts < 3 then ⟨20, -15, ["Minimal posts"]⟩
  else if r.total_posts < 10 then ⟨10, -5, ["Very few posts"]⟩
  else if r.total_posts > 5000 then ⟨15, -10, ["Suspiciously high post count"]⟩
  else if r.total_posts > 100 ∧ r.total_posts < 1000 then ⟨0, 10, ["Reasonable posting activity"]⟩
  else if r.total_posts > 1000 ∧ r.total_posts < 5000 then ⟨0, 5, ["High posting activity"]⟩
  else ⟨0, 0, []⟩

/-- Section 4: verification status bonus. -/
def verifiedDelta (r : ProfileData) : Delta :=
  if r.is_verified then ⟨0, 30, ["Verified account"]⟩ else ⟨0, 0, []⟩

/-- Section 5: missing-profile-picture penalty. -/
def picDelta (r : ProfileData) : Delta :=
  if !r.has_profile_pic then ⟨20, -15, ["No profile picture"]⟩ else ⟨0, 0, []⟩

/-- Section 6: follower count ranges. -/
def followersDelta (r : ProfileData) : Delta :=
  if r.followers = 0 then ⟨25, -20, ["No followers"]⟩
  else if r.followers < 10 then ⟨15, -10, ["Very few followers"]⟩
  else if r.followers < 50 then ⟨5, -3, ["Few followers"]⟩
  else if r.followers > 10000 ∧ r.followers < 1000000 then ⟨0, 10, ["Solid follower base"]⟩
  else if r.followers > 1000000 ∧ r.followers < 50000000 then ⟨0, 15, ["Large follower base"]⟩
  else if r.followers > 50000000 then ⟨0, 20, ["Major influencer/celebrity"]⟩
  else ⟨0, 0, []⟩

/-- Section 7: bio length analysis (`len(bio)`). -/
def bioDelta (r : ProfileData) : Delta :=
  if r.biography.length = 0 then ⟨10, -8, ["No bio"]⟩
  else if r.biography.length < 10 then ⟨5, -3, ["Minimal bio"]⟩
  else if r.biography.length > 50 then ⟨0, 5, ["Detailed bio"]⟩
  else ⟨0, 0, []⟩

/-- Section 8, first compound rule: new account with minimal activity. -/
def newMinimalDelta (r : ProfileData) : Delta :=
  if r.account_age_days < 30 ∧ r.total_posts < 5 then
    ⟨20, -15, ["New account with minimal activity"]⟩
  else ⟨0, 0, []⟩

/-- Section 8, second compound rule: bot-like pattern. It reuses the
`ratio` variable, which is still `0` when `followers == 0`. -/
def botPatternDelta (r : ProfileData) : Delta :=
  if ratioValue r > 10 ∧ r.account_age_days < 90 ∧ r.followers < 100 then
    ⟨25, -20, ["Bot-like activity pattern"]⟩
  else ⟨0, 0, []⟩

/-- Section 8, third compound rule: strong authenticity indicators. -/
def strongAuthDelta (r : ProfileData) : Delta :=
  if r.is_verified ∧ r.account_age_days > 365 ∧ r.total_posts > 50 then
    ⟨0, 10, ["Strong authenticity indicators"]⟩
  else ⟨0, 0, []⟩

/-- The scoring sections in the order the source evaluates them. -/
def scoreSections (r : ProfileData) : List Delta :=
  [ratioDelta r, ageDelta r, postsDelta r, verifiedDelta r, picDelta r,
   followersDelta r, bioDelta r, newMinimalDelta r, botPatternDelta r, strongAuthDelta r]

/-- Accumulated `risk_score` (starts at 0; every rule only adds). -/
def riskScore (r : ProfileData) : Nat :=
  ((scoreSections r).map Delta.risk).sum

/-- Accumulated `confidence_score` (starts at the neutral 50). -/
def confidenceScore (r : ProfileData) : Int :=
  50 + ((scoreSections r).map Delta.conf).sum

/-- Accumulated `reasons`, in evaluation order. -/
def reasonsList (r : ProfileData) : List String :=
  ((scoreSections r).map Delta.reasons).flatten

/-- `is_fake = risk_score > 40`. -/
def isFakeRaw (r : ProfileData) : Bool :=
  decide (riskScore r > 40)

/-- First confidence step: `confidence = max(0, min(95, confidence_score))`. -/
def clampConfidence (cs : Int) : Int := max 0 (min 95 cs)

/-- Second step: for non-fake verdicts, `confidence = max(80, min(98, confidence))`. -/
def branchAdjust (c : Int) (fake : Bool) : Int :=
  if fake then c else max 80 (min 98 c)

/-- Third step: risk-based confidence ceilings, applied last. -/
def ceilingAdjust (c : Int) (risk : Nat) : Int :=
  if risk > 60 then min c 30
  else if risk > 50 then min c 50
  else if risk > 30 then min c 70
  else c

/-- The full confidence post-processing chain, in source order. -/
def finalConfidence (cs : Int) (risk : Nat) (fake : Bool) : Int :=
  ceilingAdjust (branchAdjust (clampConfidence cs) fake) risk

/-- The verdict returned by the scorer. -/
structure Verdict where
  is_fake : Bool
  confidence : Int
  risk_score : Nat
  reasons : List String
  deriving DecidableEq, Repr

/-- ASCII lowercasing of one character, as Python's `str.lower` acts on
the ASCII range (the only range the hard-coded identifier uses). -/
def lowerChar (c : Char) : Char :=
  if 'A' ≤ c ∧ c ≤ 'Z' then Char.ofNat (c.toNat + 32) else c

/-- `username.lower()`. -/
def lowerString (s : String) : String :=
  String.mk (s.data.map lowerChar)

/-- The hard-coded allow-listed identifier, compared after lowercasing. -/
def overrideUsername : String := "vijayalakshmi14061988"

/-- The special-case test at the top of `predict`. -/
def isOverride (r : ProfileData) : Bool :=
  lowerString r.username == overrideUsername

/-- `FakeProfileDetector.predict`. -/
def predict (r : ProfileData) : Verdict :=
  if isOverride r then
    ⟨false, 85, 15, ["Profile manually verified as authentic"]⟩
  else
    ⟨isFakeRaw r, finalConfidence (confidenceScore r) (riskScore r) (isFakeRaw r),
     riskScore r, reasonsList r⟩
end FakeDetect

namespace Acquisition

open FakeDetect

/-- A profile record as produced by the acquisition chain: the payload the
scorer consumes plus the `method` provenance tag the strategies set. -/
structure AcqProfile where
  payload : ProfileData
  method : String
  deriving DecidableEq, Repr

/-- Overwrite the `method` tag (as the cache-hit path does with
`cached_data['method'] = 'cached'`). -/
def setMethod (p : AcqProfile) (m : String) : AcqProfile :=
  { p with method := m }

/-- The acquisition strategies appearing in `instagram_analyzer.py`:
the cache file, the authenticated Instaloader fetch, the four
unauthenticated scraping techniques of `_try_multiple_techniques`, and
the synthetic-data fallback. -/
inductive Strategy where
  | cacheLookup
  | instaloaderLogin
  | scrapeMobileWeb
  | scrapeDesktopWeb
  | scrapeApiEmulation
  | scrapeDirectRequest
  | syntheticFallback
  deriving DecidableEq, Repr

/-- Python-level exceptions that can escape an individual step of
`get_profile` (cache file I/O; the strategy helpers catch their own). -/
inductive PyErr where
  | ioError : String → PyErr
  deriving DecidableEq, Repr

/-- Abstract environment for one `get_profile` call: the current on-disk
cache contents (keyed by username, most recent write first), which cache
file operations would raise, and what each fetch helper would return for
a given username. `_try_instaloader_original` and the four scrape
techniques catch their own exceptions and return `None` on failure, so
they are `Option`-valued; `_generate_realistic_data` always succeeds. -/
structure AcqEnv where
  cache : List (String × AcqProfile)
  cacheReadFails : String → Bool
  cacheWriteFails : String → Bool
  auth : String → Option AcqProfile
  scrape : Strategy → String → Option AcqProfile
  synth : String → AcqProfile

/-- `_try_multiple_techniques`: the four scrape techniques in their fixed
order (mobile web, desktop web, API emulation, direct request), first
success wins. Defined in the source but not invoked by `get_profile`. -/
def try_multiple_techniques (env : AcqEnv) (u : String) : Option AcqProfile :=
  match env.scrape .scrapeMobileWeb u with
  | some p => some p
  | none =>
    match env.scrape .scrapeDesktopWeb u with
    | some p => some p
    | none =>
      match env.scrape .scrapeApiEmulation u with
      | some p => some p
      | none => env.scrape .scrapeDirectRequest u

/-- Result of one `get_profile` call: the value returned to the caller,
the cache contents afterwards, and the strategies attempted in order. -/
structure FetchOutcome where
  result : Option AcqProfile
  cacheAfter : List (String × AcqProfile)
  attempted : List Strategy
  deriving DecidableEq, Repr

/-- The body of `get_profile` (the code inside its `try`): Method 1 reads
the cache file and returns immediately tagged `cached`; Method 2 is the
authenticated Instaloader fetch, cached on success; Method 3 generates
realistic fallback data, also cached. A failing cache file operation
raises, carrying the strategies attempted up to that point. -/
def getProfileBody (env : AcqEnv) (u : String) :
    Except (PyErr × List Strategy) FetchOutcome :=
  match env.cache.lookup u with
  | some p =>
    if env.cacheReadFails u then
      .error (.ioError "json.load failed", [.cacheLookup])
    else
      .ok ⟨some (setMethod p "cached"), env.cache, [.cacheLookup]⟩
  | none =>
    match env.auth u with
    | some p =>
      if env.cacheWriteFails u then
        .error (.ioError "cache write failed", [.cacheLookup, .instaloaderLogin])
      else
        .ok ⟨some p, (u, p) :: env.cache, [.cacheLookup, .instaloaderLogin]⟩
    | none =>
      let p := env.synth u
      if env.cacheWriteFails u then
        .error (.ioError "cache write failed",
          [.cacheLookup, .instaloaderLogin, .syntheticFallback])
      else
        .ok ⟨some p, (u, p) :: env.cache,
          [.cacheLookup, .instaloaderLogin, .syntheticFallback]⟩

/-- `get_profile`: the body wrapped in its catch-all `except`, which
absorbs any exception and returns `None` to the caller (the on-disk
cache is left as it was). -/
def get_profile (env : AcqEnv) (u : String) : FetchOutcome :=
  match getProfileBody env u with
  | .ok o => o
  | .error e => ⟨none, env.cache, e.2⟩

/-- Python's `username.strip('@')` as used by the analyze route: remove
leading and trailing `'@'` characters. -/
def stripAt (s : String) : String :=
  String.mk (((s.data.dropWhile (fun c => c == '@')).reverse.dropWhile
    (fun c => c == '@')).reverse)

/-- Responses of the `/api/analyze/instagram` route. -/
inductive RouteResponse where
  | inputError : String → RouteResponse
  | rateLimited : RouteResponse
  | analysis : AcqProfile → Verdict → RouteResponse
  deriving DecidableEq, Repr

/-- The identifier handling and fetch dispatch of `analyze_instagram`:
strip `'@'`, reject an empty result with a 400 input error before any
acquisition strategy runs, otherwise fetch and score. (The profile-pic
URL normalisation the route also performs touches only fields outside
this record model.) Returns the response and the strategies attempted. -/
def analyze_instagram (env : AcqEnv) (username : String) :
    RouteResponse × List Strategy :=
  let u := stripAt username
  if u = "" then (.inputError "Username is required", [])
  else
    let o := get_profile env u
    match o.result with
    | none => (.rateLimited, o.attempted)
    | some p => (.analysis p (predict p.payload), o.attempted)

/-- Environment for the C6 counterexample: empty cache, failing login,
scrape techniques that would succeed, deterministic synthetic data. -/
def scrapeOnlyEnv : AcqEnv where
  cache := []
  cacheReadFails := fun _ => false
  cacheWriteFails := fun _ => false
  auth := fun _ => none
  scrape := fun _ _ =>
    some ⟨⟨"scrapeduser", 500, 100, 20, 365, false, true, "scraped bio"⟩, "mobile_web"⟩
  synth := fun _ =>
    ⟨⟨"someuser", 1000, 200, 10, 365, false, true, "Profile for user"⟩, "realistic_fallback"⟩

/-- Environment for the C7 witness: a cache entry whose file read raises. -/
def corruptEnv : AcqEnv where
  cache := [("baduser", ⟨⟨"baduser", 1, 1, 1, 1, false, true, "b"⟩, "instaloader_original"⟩)]
  cacheReadFails := fun _ => true
  cacheWriteFails := fun _ => false
  auth := fun _ => none
  scrape := fun _ _ => none
  synth := fun uu => ⟨⟨uu, 0, 0, 0, 0, false, false, ""⟩, "realistic_fallback"⟩

/-- Environment for the C8 witness: empty cache, every live fetch failing,
so only the synthetic fallback can supply data. -/
def freshEnv : AcqEnv where
  cache := []
  cacheReadFails := fun _ => false
  cacheWriteFails := fun _ => false
  auth := fun _ => none
  scrape := fun _ _ => none
  synth := fun uu =>
    ⟨⟨uu, 1000, 200, 10, 365, false, true, "Profile for user"⟩, "realistic_fallback"⟩

end Acquisition

namespace PredictRoute

/-- Parsed form features of the `/predict` route, after its `int()` and
string-to-bool conversions. -/
structure PredictForm where
  user_id : String
  followers_count : Int
  following_count : Int
  post_count : Int
  has_profile_pic : Bool
  is_private : Bool
  is_verified : Bool
  deriving DecidableEq, Repr

/-- Prediction label rendered by the route. -/
inductive Label where
  | genuine
  | fake
  deriving DecidableEq, Repr

/-- Responses of the `/predict` route (the template-rendered verdict is
`(prediction, confidence, is_whitelisted)`). -/
inductive PredictResponse where
  | badRequest : String → PredictResponse
  | verdict : Label → ℚ → Bool → PredictResponse
  deriving DecidableEq, Repr

/-- The three suspicious-pattern heuristics, each guarded on the account
not being verified: following/follower ratio below 0.01 (exact rational
`following / followers`), over 1000 followers with fewer than 10 posts,
and a private account with over 5000 followers. -/
def suspiciousChecks (f : PredictForm) : Bool :=
  (!f.is_verified && decide (0 < f.followers_count)
      && decide (mkRat f.following_count f.followers_count.toNat < mkRat 1 100))
  || (!f.is_verified && decide (1000 < f.followers_count) && decide (f.post_count < 10))
  || (!f.is_verified && f.is_private && decide (5000 < f.followers_count))

/-- Influencer check: verified with more than 10000 followers. -/
def influencerCheck (f : PredictForm) : Bool :=
  f.is_verified && decide (10000 < f.followers_count)

/-- `validate_input_data` on the already-typed features: the numeric
fields must be nonnegative. -/
def validateNonNegative (f : PredictForm) : Bool :=
  decide (0 ≤ f.followers_count) && decide (0 ≤ f.following_count)
    && decide (0 ≤ f.post_count)

/-- The `/predict` route handler, in source order: empty user id →
400; whitelist → GENUINE 99.9; influencer → GENUINE 99.0; any suspicious
flag → FAKE 95.0; invalid input → 400; otherwise the classifier model is
consulted. The second component records whether the model was invoked. -/
def predict_route (wl : String → Bool) (model : PredictForm → Label × ℚ)
    (f : PredictForm) : PredictResponse × Bool :=
  if f.user_id = "" then (.badRequest "User ID is required", false)
  else if wl f.user_id then (.verdict .genuine (999/10) true, false)
  else if influencerCheck f then (.verdict .genuine 99 false, false)
  else if suspiciousChecks f then (.verdict .fake 95 false, false)
  else if !validateNonNegative f then (.badRequest "invalid input", false)
  else
    let m := model f
    (.verdict m.1 m.2 false, true)

end PredictRoute

namespace FakeDetect

/-- Under the guard, `ratioValue` is exactly the division the source
performs. -/
theorem ratioValue_eq_div (r : ProfileData) (h : 0 < r.followers) :
    ratioValue r = (r.following : ℚ) / (r.followers : ℚ) := by
  rw [ratioValue, if_pos h, Rat.mkRat_eq_div]
  push_cast
  ring


/-- C1: for the hard-coded allow-listed identifier (matched
case-insensitively via lowercasing), `predict` short-circuits every other
rule and returns the fixed verdict `is_fake = false`, `confidence = 85`,
`risk_score = 15` with its single fixed reason, whatever the other fields
hold. -/
theorem C1_override_fixed_verdict (r : ProfileData)
    (h : lowerString r.username = "vijayalakshmi14061988") :
    predict r = ⟨false, 85, 15, ["Profile manually verified as authentic"]⟩ := by
  simp [predict, isOverride, overrideUsername, h]

theorem C1_witness :
    lowerString (ProfileData.mk "VijayaLakshmi14061988" 0 999999 0 1 false false "").username
        = "vijayalakshmi14061988" ∧
    predict (ProfileData.mk "VijayaLakshmi14061988" 0 999999 0 1 false false "")
        = ⟨false, 85, 15, ["Profile manually verified as authentic"]⟩ :=
  ⟨by decide, C1_override_fixed_verdict _ (by decide)⟩

/-- C2: for every input record the verdict satisfies
`is_fake = (risk_score > 40)`; boundary 40 is genuine, 41 and above is
fake, and the override verdict (`risk_score = 15`, `is_fake = false`)
satisfies the same equivalence. -/
theorem C2_fake_iff_risk_gt_40 (r : ProfileData) :
    (predict r).is_fake = true ↔ (predict r).risk_score > 40 := by
  cases h : isOverride r
  · simp [predict, h, isFakeRaw]
  · simp [predict, h]

theorem ratioDelta_risk (r : ProfileData) :
    5 ∣ (ratioDelta r).risk ∧ (ratioDelta r).risk ≤ 40 := by
  unfold ratioDelta
  repeat' split
  all_goals decide

theorem ageDelta_risk (r : ProfileData) :
    5 ∣ (ageDelta r).risk ∧ (ageDelta r).risk ≤ 35 := by
  unfold ageDelta
  repeat' split
  all_goals decide

theorem postsDelta_risk (r : ProfileData) :
    5 ∣ (postsDelta r).risk ∧ (postsDelta r).risk ≤ 30 := by
  unfold postsDelta
  repeat' split
  all_goals decide

theorem verifiedDelta_risk (r : ProfileData) :
    5 ∣ (verifiedDelta r).risk ∧ (verifiedDelta r).risk ≤ 0 := by
  unfold verifiedDelta
  repeat' split
  all_goals decide

theorem picDelta_risk (r : ProfileData) :
    5 ∣ (picDelta r).risk ∧ (picDelta r).risk ≤ 20 := by
  unfold picDelta
  repeat' split
  all_goals decide

theorem followersDelta_risk (r : ProfileData) :
    5 ∣ (followersDelta r).risk ∧ (followersDelta r).risk ≤ 25 := by
  unfold followersDelta
  repeat' split
  all_goals decide

theorem bioDelta_risk (r : ProfileData) :
    5 ∣ (bioDelta r).risk ∧ (bioDelta r).risk ≤ 10 := by
  unfold bioDelta
  repeat' split
  all_goals decide

theorem newMinimalDelta_risk (r : ProfileData) :
    5 ∣ (newMinimalDelta r).risk ∧ (newMinimalDelta r).risk ≤ 20 := by
  unfold newMinimalDelta
  repeat' split
  all_goals decide

theorem botPatternDelta_risk (r : ProfileData) :
    5 ∣ (botPatternDelta r).risk ∧ (botPatternDelta r).risk ≤ 25 := by
  unfold botPatternDelta
  repeat' split
  all_goals decide

theorem strongAuthDelta_risk (r : ProfileData) :
    5 ∣ (strongAuthDelta r).risk ∧ (strongAuthDelta r).risk ≤ 0 := by
  unfold strongAuthDelta
  repeat' split
  all_goals decide

/-- C10: for every input record (the override included) the returned
`risk_score` is a nonnegative multiple of 5 and is at most 205, every
rule adding a multiple of 5 and the per-section maxima summing to
40+35+30+0+20+25+10+20+25+0 = 205; in particular the value 41 is never
returned. -/
theorem C10_risk_score_multiple_of_five (r : ProfileData) :
    5 ∣ (predict r).risk_score ∧ (predict r).risk_score ≤ 205 ∧
      (predict r).risk_score ≠ 41 := by
  have h1 := ratioDelta_risk r
  have h2 := ageDelta_risk r
  have h3 := postsDelta_risk r
  have h4 := verifiedDelta_risk r
  have h5 := picDelta_risk r
  have h6 := followersDelta_risk r
  have h7 := bioDelta_risk r
  have h8 := newMinimalDelta_risk r
  have h9 := botPatternDelta_risk r
  have h10 := strongAuthDelta_risk r
  cases h : isOverride r
  · simp only [predict, h, Bool.false_eq_true, if_false, riskScore, scoreSections,
      List.map_cons, List.map_nil, List.sum_cons, List.sum_nil]
    omega
  · simp [predict, h]
    omega

/-- C5: when `follower_count = 0` the ratio section contributes nothing to
risk, confidence or reasons, the `ratio` variable keeps its initial value 0
(so no division is performed), and the ratio-dependent bot-pattern compound
rule cannot fire either. -/
theorem C5_zero_followers_no_ratio (r : ProfileData) (h : r.followers = 0) :
    ratioDelta r = ⟨0, 0, []⟩ ∧ ratioValue r = 0 ∧
      botPatternDelta r = ⟨0, 0, []⟩ := by
  have hr : ratioValue r = 0 := by simp [ratioValue, h]
  refine ⟨by simp [ratioDelta, h], hr, ?_⟩
  norm_num [botPatternDelta, hr]

theorem C5_witness :
    (ProfileData.mk "nofollowers" 0 50 3 10 false true "hi").followers = 0 ∧
    (ratioDelta (ProfileData.mk "nofollowers" 0 50 3 10 false true "hi") = ⟨0, 0, []⟩ ∧
      ratioValue (ProfileData.mk "nofollowers" 0 50 3 10 false true "hi") = 0 ∧
      botPatternDelta (ProfileData.mk "nofollowers" 0 50 3 10 false true "hi") = ⟨0, 0, []⟩) :=
  ⟨rfl, C5_zero_followers_no_ratio _ rfl⟩

/-- C3 counterexample: a record classified genuine whose final confidence
is 70, outside the claimed [80, 98] band — the risk ceiling (risk 35 > 30
caps at 70) is applied after the genuine re-clamp. -/
theorem C3_counterexample :
    (predict (ProfileData.mk "someuser" 0 0 200 0 false true "")).is_fake = false ∧
    (predict (ProfileData.mk "someuser" 0 0 200 0 false true "")).confidence = 70 := by
  decide

/-- C3 (amended): the pre-branch clamped confidence never exceeds 95, and
whenever `is_fake = false` the final confidence lies in [70, 98] — not
[80, 98]: the genuine re-clamp yields [80, 98], but the risk ceiling
applied afterwards lowers it to 70 whenever `30 < risk_score ≤ 40`. -/
theorem C3_genuine_confidence_bounds (r : ProfileData) :
    clampConfidence (confidenceScore r) ≤ 95 ∧
    ((predict r).is_fake = false →
      70 ≤ (predict r).confidence ∧ (predict r).confidence ≤ 98) := by
  constructor
  · unfold clampConfidence
    omega
  · intro h
    cases ho : isOverride r
    · have hf : isFakeRaw r = false := by simpa [predict, ho] using h
      have hr : riskScore r ≤ 40 := by
        have := of_decide_eq_false hf
        omega
      simp [predict, ho, finalConfidence, branchAdjust, ceilingAdjust, clampConfidence, hf]
      repeat' split
      all_goals omega
    · simp [predict, ho]

theorem C3_witness :
    (predict (ProfileData.mk "gooduser" 50000 200 300 800 true true "hello world bio")).is_fake
        = false ∧
    (70 ≤ (predict (ProfileData.mk "gooduser" 50000 200 300 800 true true "hello world bio")).confidence ∧
      (predict (ProfileData.mk "gooduser" 50000 200 300 800 true true "hello world bio")).confidence ≤ 98) :=
  ⟨by decide, (C3_genuine_confidence_bounds _).2 (by decide)⟩

/-- C4: for every non-override record the final confidence is exactly the
chain clamp-to-[0,95], genuine re-clamp, then risk ceiling (applied last);
consequently `risk_score > 60` forces confidence ≤ 30, and the ceiling
stage at risk 61 never yields more than at risk 59. -/
theorem C4_confidence_pipeline (r : ProfileData) (h : isOverride r = false) :
    (predict r).confidence
        = ceilingAdjust (branchAdjust (clampConfidence (confidenceScore r)) (isFakeRaw r))
            (riskScore r) ∧
    ((predict r).risk_score > 60 → (predict r).confidence ≤ 30) ∧
    (∀ c : Int, ceilingAdjust c 61 ≤ ceilingAdjust c 59) := by
  refine ⟨by simp [predict, h, finalConfidence], ?_, ?_⟩
  · intro hr
    simp [predict, h] at hr ⊢
    unfold finalConfidence ceilingAdjust
    simp [hr]
  · intro c
    unfold ceilingAdjust
    norm_num

theorem C4_witness :
    isOverride (ProfileData.mk "spamuser" 0 4000 0 3 false false "") = false ∧
    (predict (ProfileData.mk "spamuser" 0 4000 0 3 false false "")).risk_score > 60 ∧
    (predict (ProfileData.mk "spamuser" 0 4000 0 3 false false "")).confidence ≤ 30 :=
  ⟨by decide, by decide,
    (C4_confidence_pipeline _ (by decide)).2.1 (by decide)⟩

end FakeDetect

namespace Acquisition

/-- C6 counterexample: with an empty cache and a failing login, `get_profile`
jumps straight to the synthetic fallback even though every scrape technique
would have succeeded — no scrape variant is attempted. -/
theorem C6_counterexample :
    (get_profile scrapeOnlyEnv "someuser").attempted
        = [Strategy.cacheLookup, Strategy.instaloaderLogin, Strategy.syntheticFallback] ∧
    Strategy.scrapeMobileWeb ∉ (get_profile scrapeOnlyEnv "someuser").attempted ∧
    try_multiple_techniques scrapeOnlyEnv "someuser"
        = some ⟨⟨"scrapeduser", 500, 100, 20, 365, false, true, "scraped bio"⟩, "mobile_web"⟩ ∧
    (get_profile scrapeOnlyEnv "someuser").result
        = some ⟨⟨"someuser", 1000, 200, 10, 365, false, true, "Profile for user"⟩,
            "realistic_fallback"⟩ := by
  decide

/-- C6 (amended): `get_profile` attempts, in order, only the cache lookup,
the authenticated Instaloader fetch, and the synthetic fallback, first
success winning; the unauthenticated scrape variants (defined in
`_try_multiple_techniques`) are never attempted by it. -/
theorem C6_strategy_order (env : AcqEnv) (u : String) :
    ((get_profile env u).attempted = [Strategy.cacheLookup] ∨
     (get_profile env u).attempted = [Strategy.cacheLookup, Strategy.instaloaderLogin] ∨
     (get_profile env u).attempted
        = [Strategy.cacheLookup, Strategy.instaloaderLogin, Strategy.syntheticFallback]) ∧
    Strategy.scrapeMobileWeb ∉ (get_profile env u).attempted ∧
    Strategy.scrapeDesktopWeb ∉ (get_profile env u).attempted ∧
    Strategy.scrapeApiEmulation ∉ (get_profile env u).attempted ∧
    Strategy.scrapeDirectRequest ∉ (get_profile env u).attempted := by
  unfold get_profile getProfileBody
  cases hc : env.cache.lookup u with
  | some p =>
    cases hr : env.cacheReadFails u <;> simp [hc, hr]
  | none =>
    cases ha : env.auth u with
    | some p =>
      cases hw : env.cacheWriteFails u <;> simp [hc, ha, hw]
    | none =>
      cases hw : env.cacheWriteFails u <;> simp [hc, ha, hw]

/-- C7: `get_profile` never propagates an exception to its caller — any
error raised by the body is absorbed by the catch-all handler into a
`None` result — and for the empty identifier the analyze route reports an
explicit input error before any acquisition strategy is attempted. -/
theorem C7_never_raises (env : AcqEnv) (u : String) :
    (∀ e, getProfileBody env u = Except.error e →
        get_profile env u = ⟨none, env.cache, e.2⟩) ∧
    analyze_instagram env "" = (RouteResponse.inputError "Username is required", []) := by
  constructor
  · intro e he
    unfold get_profile
    rw [he]
  · rfl

theorem C7_witness :
    get_profile corruptEnv "baduser" = ⟨none, corruptEnv.cache, [Strategy.cacheLookup]⟩ ∧
    analyze_instagram corruptEnv "" = (RouteResponse.inputError "Username is required", []) :=
  ⟨(C7_never_raises corruptEnv "baduser").1
      (PyErr.ioError "json.load failed", [Strategy.cacheLookup]) rfl,
   (C7_never_raises corruptEnv "").2⟩

/-- C8: a cache hit is returned immediately, tagged `cached`, with no other
strategy invoked; any successful non-cache fetch (the synthetic fallback
included) is written to the per-identifier cache before being returned;
and once a synthetic record has been generated, a subsequent fetch for
the same identifier returns that same record from the cache. -/
theorem C8_cache_semantics (env : AcqEnv) (u : String) :
    (∀ p, env.cache.lookup u = some p → env.cacheReadFails u = false →
      get_profile env u = ⟨some (setMethod p "cached"), env.cache, [Strategy.cacheLookup]⟩) ∧
    (env.cache.lookup u = none → env.cacheWriteFails u = false →
      ∀ p, (get_profile env u).result = some p →
        (get_profile env u).cacheAfter = (u, p) :: env.cache ∧
        ((get_profile env u).cacheAfter.lookup u = some p)) ∧
    (env.cache.lookup u = none → env.auth u = none → env.cacheWriteFails u = false →
      env.cacheReadFails u = false →
      (get_profile env u).result = some (env.synth u) ∧
      get_profile { env with cache := (get_profile env u).cacheAfter } u
          = ⟨some (setMethod (env.synth u) "cached"),
             (get_profile env u).cacheAfter, [Strategy.cacheLookup]⟩) := by
  refine ⟨?_, ?_, ?_⟩
  · intro p hp hr
    simp [get_profile, getProfileBody, hp, hr]
  · intro hn hw p
    cases ha : env.auth u with
    | some q => simp [get_profile, getProfileBody, hn, hw, ha, List.lookup]
    | none => simp [get_profile, getProfileBody, hn, hw, ha, List.lookup]
  · intro hn ha hw hr
    simp [get_profile, getProfileBody, hn, ha, hw, hr, setMethod, List.lookup]

theorem C8_witness :
    (get_profile freshEnv "newuser").result = some (freshEnv.synth "newuser") ∧
    get_profile { freshEnv with cache := (get_profile freshEnv "newuser").cacheAfter } "newuser"
        = ⟨some (setMethod (freshEnv.synth "newuser") "cached"),
           (get_profile freshEnv "newuser").cacheAfter, [Strategy.cacheLookup]⟩ :=
  (C8_cache_semantics freshEnv "newuser").2.2 rfl rfl rfl rfl

end Acquisition

namespace PredictRoute

/-- C9: for a non-whitelisted submission, a verified account with more
than 10000 followers is answered GENUINE with confidence 99.0 without
invoking the classifier, taking precedence over the suspicious-pattern
heuristics; for a non-verified account any suspicious flag forces FAKE
with confidence 95.0, also before the model is consulted. -/
theorem C9_influencer_precedence (wl : String → Bool)
    (model : PredictForm → Label × ℚ) (f : PredictForm)
    (hid : f.user_id ≠ "") (hw : wl f.user_id = false) :
    (f.is_verified = true → 10000 < f.followers_count →
      predict_route wl model f = (.verdict .genuine 99 false, false)) ∧
    (f.is_verified = false → suspiciousChecks f = true →
      predict_route wl model f = (.verdict .fake 95 false, false)) := by
  constructor
  · intro hv hf
    have hi : influencerCheck f = true := by simp [influencerCheck, hv, hf]
    simp [predict_route, hid, hw, hi]
  · intro hv hs
    have hi : influencerCheck f = false := by simp [influencerCheck, hv]
    simp [predict_route, hid, hw, hi, hs]

theorem C9_witness :
    predict_route (fun _ => false) (fun _ => (Label.fake, 50))
        (PredictForm.mk "celebrity" 20000 100 50 true false true)
        = (.verdict .genuine 99 false, false) ∧
    predict_route (fun _ => false) (fun _ => (Label.fake, 50))
        (PredictForm.mk "lowposts" 2000 10 5 true false false)
        = (.verdict .fake 95 false, false) :=
  ⟨(C9_influencer_precedence _ _ _ (by decide) rfl).1 rfl (by decide),
   (C9_influencer_precedence _ _ _ (by decide) rfl).2 rfl (by decide)⟩

end PredictRoute
